import Mathlib

/-!
Verification development for the market-data resolution and financial
calculation core of the `Telegram_Crypto-Bot` repository (`src/bot.py`).

Embedding conventions:
* Python floats are modelled as exact rationals (`ℚ`); the PnL and
  degen-score arithmetic in the source is plain field arithmetic, and all
  spec-level claims are about the exact formulas.
* The upstream CoinGecko HTTP endpoints are modelled by an explicit
  `GatewayEnv` of fetch functions returning `Option` values: `none` stands
  for any non-success transport outcome (network error, non-200 status,
  malformed or absent field), exactly the cases `safe_get` and the
  surrounding `try/except` blocks collapse to `None` in the source.
* The module-level mutable caches `PRICE_CACHE` / `MCAP_CACHE` are modelled
  by explicit state passing (`Cache` in, `Cache` out); `time.time()` becomes
  an explicit `now : ℚ` argument.  Lookups additionally report how many
  calls they issued to the data endpoint (`fetches`) and to the search
  endpoint (`searches`), making the observable network effects explicit.
* Python's `ZeroDivisionError` (raised by `usd_amount / buy_price` when
  `buy_price == 0.0`) is modelled by an explicit `WhatIfOutcome.fault`
  constructor; returning `None` is `WhatIfOutcome.unavailable`.
* Python string helpers `.upper()`, `.lower()`, `.strip()` are modelled by
  the character-list functions `py_upper`, `py_lower`, `py_strip` below;
  all symbols involved in the repository's alias table and commands are
  ASCII, where these agree with Python's semantics.
-/

namespace CryptoBot

/-- Python's `str.lower()` (ASCII case mapping). -/
def py_lower (s : String) : String := ⟨s.data.map Char.toLower⟩

/-- Python's `str.upper()` (ASCII case mapping). -/
def py_upper (s : String) : String := ⟨s.data.map Char.toUpper⟩

/-- Python's `str.strip()`: drop leading and trailing whitespace. -/
def py_strip (s : String) : String :=
  ⟨((s.data.dropWhile Char.isWhitespace).reverse.dropWhile Char.isWhitespace).reverse⟩

/-- One candidate returned by the CoinGecko `/search` endpoint: its ticker
`symbol` and its canonical `id` (`c.get("id")` in the source may be absent,
hence `Option`). -/
structure SearchCandidate where
  symbol : String
  id : Option String
deriving DecidableEq

/-- The upstream Market Data Gateway: each field is one CoinGecko endpoint
used by `src/bot.py`, with `none` for any non-success outcome.
`fetchHist` takes the token id and the user-facing `YYYY-MM-DD` date string;
the source's internal `strptime`/`strftime` day-first reformatting (and its
invalid-date early `return None`) is internal to this boundary, so an
invalid date is one of the cases in which `fetchHist` yields `none`. -/
structure GatewayEnv where
  search : String → Option (List SearchCandidate)
  fetchPrice : String → Option ℚ
  fetchMcap : String → Option ℚ
  fetchHist : String → String → Option ℚ
  fetchName : String → Option String

/-- The static alias table `CG_MAPPING` of `src/bot.py`, verbatim. -/
def CG_MAPPING : List (String × String) :=
  [("btc", "bitcoin"),
   ("eth", "ethereum"),
   ("sol", "solana"),
   ("bnb", "binancecoin"),
   ("xrp", "ripple"),
   ("ada", "cardano"),
   ("doge", "dogecoin"),
   ("ton", "the-open-network"),
   ("trx", "tron"),
   ("matic", "matic-network"),
   ("avax", "avalanche-2"),
   ("ltc", "litecoin"),
   ("uni", "uniswap"),
   ("link", "chainlink"),
   ("atom", "cosmos"),
   ("near", "near"),
   ("arb", "arbitrum"),
   ("op", "optimism"),
   ("sei", "sei-network"),
   ("inj", "injective-protocol"),
   ("usdc", "usd-coin"),
   ("usdt", "tether"),
   ("dai", "dai"),
   ("frax", "frax"),
   ("shib", "shiba-inu"),
   ("pepe", "pepe"),
   ("bonk", "bonk"),
   ("wif", "dogwifcoin"),
   ("flok", "floki")]

/-- `resolve_token_id` of `src/bot.py`.  Returns the resolved id (or `none`)
together with the number of calls issued to the `/search` endpoint (0 when
the alias table answers, 1 otherwise).  The source returns the first
candidate whose symbol matches the normalized query case-insensitively,
else the first candidate; a candidate list that is absent (`r is None`,
JSON error, missing "coins" field) or empty yields `none`. -/
def resolve_token_id (env : GatewayEnv) (symbol : String) : Option String × Nat :=
  let sym := py_strip (py_lower symbol)
  match List.lookup sym CG_MAPPING with
  | some tid => (some tid, 0)
  | none =>
    match env.search sym with
    | none => (none, 1)
    | some [] => (none, 1)
    | some (c :: cs) =>
      match (c :: cs).find? (fun x => py_lower x.symbol == sym) with
      | some x => (x.id, 1)
      | none => (c.id, 1)

/-- `get_token_name` of `src/bot.py`: resolve, then fetch the display name
from the `/coins/{id}` endpoint. -/
def get_token_name (env : GatewayEnv) (symbol : String) : Option String :=
  match (resolve_token_id env symbol).1 with
  | none => none
  | some token_id => env.fetchName token_id

/-- One entry of `PRICE_CACHE` / `MCAP_CACHE`: the cached value and the
timestamp `ts` at which it was stored. -/
structure CacheEntry where
  value : ℚ
  ts : ℚ
deriving DecidableEq

/-- A cache keyed by the upper-cased symbol, as in the source's
`PRICE_CACHE.get(sym_up)` / `PRICE_CACHE[sym_up] = ...`. -/
abbrev Cache := String → Option CacheEntry

def PRICE_TTL : ℚ := 20

def MCAP_TTL : ℚ := 60

/-- Result of one cached lookup: the returned value, the cache state after
the call, and the number of calls issued to the data endpoint (`fetches`)
and to the `/search` endpoint (`searches`) during this lookup. -/
structure FetchResult where
  result : Option ℚ
  cache : Cache
  fetches : Nat
  searches : Nat

/-- The cache-miss path of `get_current_price_usd` in `src/bot.py`: resolve
the symbol (`none` aborts before any price fetch), call the `/simple/price`
endpoint (one data fetch even when it fails), and on success overwrite the
`symbol.upper()` entry with the new price and the current time; a failed
fetch leaves the cache as it was. -/
def refresh_price (env : GatewayEnv) (cache : Cache) (now : ℚ)
    (symbol : String) : FetchResult :=
  match resolve_token_id env symbol with
  | (none, s) => ⟨none, cache, 0, s⟩
  | (some token_id, s) =>
    match env.fetchPrice token_id with
    | none => ⟨none, cache, 1, s⟩
    | some price =>
      ⟨some price, fun k => if k = py_upper symbol then some ⟨price, now⟩ else cache k, 1, s⟩

/-- `get_current_price_usd` of `src/bot.py`: serve the cached price if the
entry for `symbol.upper()` is younger than `PRICE_TTL`; otherwise take the
miss path `refresh_price`. -/
def get_current_price_usd (env : GatewayEnv) (cache : Cache) (now : ℚ)
    (symbol : String) : FetchResult :=
  match cache (py_upper symbol) with
  | some cached =>
    if now - cached.ts < PRICE_TTL then ⟨some cached.value, cache, 0, 0⟩
    else refresh_price env cache now symbol
  | none => refresh_price env cache now symbol

/-- The cache-miss path of `get_token_market_cap` in `src/bot.py`, same
shape as `refresh_price` with the `/coins/markets` endpoint (an empty
markets list or absent `market_cap` field collapses to
`fetchMcap = none`). -/
def refresh_mcap (env : GatewayEnv) (cache : Cache) (now : ℚ)
    (symbol : String) : FetchResult :=
  match resolve_token_id env symbol with
  | (none, s) => ⟨none, cache, 0, s⟩
  | (some token_id, s) =>
    match env.fetchMcap token_id with
    | none => ⟨none, cache, 1, s⟩
    | some mcap =>
      ⟨some mcap, fun k => if k = py_upper symbol then some ⟨mcap, now⟩ else cache k, 1, s⟩

/-- `get_token_market_cap` of `src/bot.py`: same shape as
`get_current_price_usd` with its own cache and `MCAP_TTL`. -/
def get_token_market_cap (env : GatewayEnv) (cache : Cache) (now : ℚ)
    (symbol : String) : FetchResult :=
  match cache (py_upper symbol) with
  | some cached =>
    if now - cached.ts < MCAP_TTL then ⟨some cached.value, cache, 0, 0⟩
    else refresh_mcap env cache now symbol
  | none => refresh_mcap env cache now symbol

/-- `get_historical_price_usd` of `src/bot.py`: resolve the symbol, then
fetch the price for the given date from the `/coins/{id}/history`
endpoint (date reformatting internal to the gateway boundary, see
`GatewayEnv.fetchHist`). -/
def get_historical_price_usd (env : GatewayEnv) (symbol date_str : String) : Option ℚ :=
  match (resolve_token_id env symbol).1 with
  | none => none
  | some token_id => env.fetchHist token_id date_str

/-- `_mcap_risk_score` of `src/bot.py`. -/
def mcap_risk_score (mcap : ℚ) : ℚ :=
  if mcap ≥ 10000000000 then 1
  else if mcap ≥ 1000000000 then 3
  else if mcap ≥ 200000000 then 5
  else if mcap ≥ 50000000 then 7
  else if mcap ≥ 5000000 then 8
  else 10

/-- `_vol_risk_score` of `src/bot.py`. -/
def vol_risk_score (abs_change_24h : ℚ) : ℚ :=
  if abs_change_24h < 2 then 2
  else if abs_change_24h < 5 then 4
  else if abs_change_24h < 10 then 6
  else if abs_change_24h < 20 then 8
  else 10

/-- Python's `round(x, 1)`.  On every value reachable in `degen_score` the
blend `0.6*m + 0.4*v` of tier scores is an exact multiple of `1/5`, so no
rounding tie ever occurs and the banker's tie-breaking of Python's `round`
coincides with ordinary rounding. -/
def round1 (q : ℚ) : ℚ := ((round (10 * q) : ℤ) : ℚ) / 10

/-- The five label tiers of `degen_score` (the source's label strings, as
an enum). -/
inductive DegenLabel where
  | blueChip
  | largeCap
  | midCap
  | microcap
  | memeDegen
deriving DecidableEq

structure DegenResult where
  score : ℚ
  label : DegenLabel
deriving DecidableEq

/-- The clamped blend `max(1.0, min(10.0, 0.6*m_score + 0.4*v_score))` of
`degen_score` in `src/bot.py`. -/
def blended (m_score v_score : ℚ) : ℚ :=
  max 1 (min 10 (6 / 10 * m_score + 4 / 10 * v_score))

/-- The volatility tier used by `degen_score`: the fixed neutral `6.0` when
the 24h change is unknown, else `_vol_risk_score(abs(change_24h))`. -/
def vol_param (change_24h : Option ℚ) : ℚ :=
  match change_24h with
  | none => 6
  | some c => vol_risk_score |c|

/-- The label if-chain of `degen_score` in `src/bot.py`, applied to the
clamped blend. -/
def degen_label (score : ℚ) : DegenLabel :=
  if score ≤ 2 then .blueChip
  else if score ≤ 4 then .largeCap
  else if score ≤ 6 then .midCap
  else if score ≤ 8 then .microcap
  else .memeDegen

/-- `degen_score` of `src/bot.py`: `None` when the market cap is unknown;
otherwise blend the market-cap tier with the volatility tier (neutral 6
when the 24h change is unknown), clamp to `[1, 10]`, label, and return the
score rounded to one decimal. -/
def degen_score (mcap change_24h : Option ℚ) : Option DegenResult :=
  match mcap with
  | none => none
  | some m =>
    let m_score := mcap_risk_score m
    let v_score := vol_param change_24h
    let score := blended m_score v_score
    some ⟨round1 score, degen_label score⟩

/-- The result dictionary built by `calc_what_if_date` in `src/bot.py`. -/
structure WhatIfResult where
  name : String
  symbol : String
  usd_amount : ℚ
  tokens : ℚ
  buy_price : ℚ
  buy_date : String
  current_price : ℚ
  initial_value : ℚ
  current_value : ℚ
  profit_abs : ℚ
  profit_pct : ℚ
deriving DecidableEq

/-- Outcome of `calc_what_if_date`: `unavailable` is the source's
`return None`; `fault` is the `ZeroDivisionError` Python raises from
`usd_amount / buy_price` when the fetched historical price is `0.0`. -/
inductive WhatIfOutcome where
  | unavailable
  | fault
  | ok (r : WhatIfResult)
deriving DecidableEq

/-- `calc_what_if_date` of `src/bot.py`.  The current price is obtained
through the price cache, hence the `cache` / `now` arguments; only the
returned price feeds the arithmetic.  Python truthiness `if usd_amount`
is `usd_amount ≠ 0`, and `get_token_name(symbol) or symbol.upper()` falls
back on both `None` and the empty string. -/
def calc_what_if_date (env : GatewayEnv) (cache : Cache) (now : ℚ)
    (symbol : String) (usd_amount : ℚ) (date_str : String) : WhatIfOutcome :=
  match get_historical_price_usd env symbol date_str with
  | none => .unavailable
  | some buy_price =>
    match (get_current_price_usd env cache now symbol).result with
    | none => .unavailable
    | some current =>
      if buy_price = 0 then .fault
      else
        let tokens := usd_amount / buy_price
        let current_value := tokens * current
        let profit := current_value - usd_amount
        let pct := if usd_amount ≠ 0 then profit / usd_amount * 100 else 0
        let nm := match get_token_name env symbol with
          | some n => if n = "" then py_upper symbol else n
          | none => py_upper symbol
        .ok
          { name := nm
            symbol := py_upper symbol
            usd_amount := usd_amount
            tokens := tokens
            buy_price := buy_price
            buy_date := date_str
            current_price := current
            initial_value := usd_amount
            current_value := current_value
            profit_abs := profit
            profit_pct := pct }

/-- One stored position record, as written by `add_user_position` in
`src/bot.py`. -/
structure Position where
  symbol : String
  amount : ℚ
  buy_price : ℚ
  created_at : String
deriving DecidableEq

/-- One per-position output line of the `portfolio` handler: `idx` is the
1-based index of the position in the full stored list (Python's
`enumerate(positions, start=1)`), the remaining fields are the values the
source interpolates into the line. -/
structure PortfolioLine where
  idx : Nat
  symbol : String
  amount : ℚ
  buy_price : ℚ
  current_price : ℚ
  initial_value : ℚ
  current_value : ℚ
  profit_abs : ℚ
  profit_pct : ℚ
deriving DecidableEq

/-- The summary header plus per-position lines built by `portfolio`. -/
structure PortfolioSummary where
  lines : List PortfolioLine
  total_initial : ℚ
  total_current : ℚ
  total_profit : ℚ
  total_pct : ℚ

/-- The per-position arithmetic of the `portfolio` loop body in
`src/bot.py`. -/
def position_line (idx : Nat) (p : Position) (price : ℚ) : PortfolioLine :=
  let initial_value := p.amount * p.buy_price
  let current_value := p.amount * price
  let profit_abs := current_value - initial_value
  { idx := idx
    symbol := p.symbol
    amount := p.amount
    buy_price := p.buy_price
    current_price := price
    initial_value := initial_value
    current_value := current_value
    profit_abs := profit_abs
    profit_pct := if initial_value ≠ 0 then profit_abs / initial_value * 100 else 0 }

/-- The `for idx, pos in enumerate(positions, start=1)` loop of `portfolio`
in `src/bot.py`, threading the price cache through the successive
`get_current_price_usd` calls.  A position whose price lookup yields `None`
is skipped (`continue`): no line, no contribution to the totals; the index
still advances, as in `enumerate`.  Returns the lines, the two running
totals, and the final cache. -/
def portfolio_aux (env : GatewayEnv) (now : ℚ) :
    Nat → Cache → List Position → List PortfolioLine × ℚ × ℚ × Cache
  | _, cache, [] => ([], 0, 0, cache)
  | idx, cache, p :: ps =>
    let fr := get_current_price_usd env cache now p.symbol
    match fr.result with
    | none => portfolio_aux env now (idx + 1) fr.cache ps
    | some price =>
      let line := position_line idx p price
      let rest := portfolio_aux env now (idx + 1) fr.cache ps
      (line :: rest.1, line.initial_value + rest.2.1, line.current_value + rest.2.2.1,
        rest.2.2.2)

/-- The summary computed by `portfolio` in `src/bot.py` over one account's
ordered position list (the source early-returns a help message on an empty
list before reaching this computation, on which every statement below is
vacuous). -/
def portfolio_calc (env : GatewayEnv) (cache : Cache) (now : ℚ)
    (positions : List Position) : PortfolioSummary × Cache :=
  let r := portfolio_aux env now 1 cache positions
  let total_initial := r.2.1
  let total_current := r.2.2.1
  let total_profit := total_current - total_initial
  ({ lines := r.1
     total_initial := total_initial
     total_current := total_current
     total_profit := total_profit
     total_pct := if total_initial ≠ 0 then total_profit / total_initial * 100 else 0 },
   r.2.2.2)

/-- The whole position store: account id to ordered position list.  Python's
`all_data.get(key, [])` reads an absent account as the empty list, which
this total-function model makes definitional. -/
abbrev Store := Nat → List Position

/-- The store mutation performed by the `remove` handler of `src/bot.py`:
uppercase the argument, drop every position of the requesting account whose
symbol equals it, and save only when something was dropped.  The `Bool`
reports whether any position matched (the source replies "No ... positions
found" when it is `false`). -/
def remove (store : Store) (user_id : Nat) (symbolArg : String) : Store × Bool :=
  let symbol := py_upper symbolArg
  let positions := store user_id
  let new_positions := positions.filter (fun p => p.symbol != symbol)
  if new_positions.length = positions.length then (store, false)
  else ((fun u => if u = user_id then new_positions else store u), true)

/-- The store mutation performed by the `clear` handler of `src/bot.py`:
empty the requesting account's list when it is non-empty; otherwise the
store is left as is (and the source replies that nothing was saved).  The
`Bool` reports whether anything was cleared. -/
def clear (store : Store) (user_id : Nat) : Store × Bool :=
  if store user_id ≠ [] then
    ((fun u => if u = user_id then [] else store u), true)
  else (store, false)

/-! Concrete environments, caches and stores used by the witness and
counterexample theorems. -/

/-- The empty cache. -/
def emptyCache : Cache := fun _ => none

/-- A gateway on which every endpoint fails. -/
def envDown : GatewayEnv :=
  { search := fun _ => none
    fetchPrice := fun _ => none
    fetchMcap := fun _ => none
    fetchHist := fun _ _ => none
    fetchName := fun _ => none }

/-- A gateway answering a historical price of 10 and a current price of 20
for every token (name lookup failing), the configuration of the spec's
what-if round-trip example. -/
def envRoundTrip : GatewayEnv :=
  { search := fun _ => none
    fetchPrice := fun _ => some 20
    fetchMcap := fun _ => none
    fetchHist := fun _ _ => some 10
    fetchName := fun _ => none }

/-- A gateway whose historical price endpoint answers `0.0` while the
current price endpoint answers 20: the configuration on which the source's
`usd_amount / buy_price` raises `ZeroDivisionError`. -/
def envZeroHist : GatewayEnv :=
  { search := fun _ => none
    fetchPrice := fun _ => some 20
    fetchMcap := fun _ => none
    fetchHist := fun _ _ => some 0
    fetchName := fun _ => none }

/-- A cache holding a price entry of value 5 observed at time 0 for the
symbol FOO. -/
def cacheFoo : Cache :=
  fun k => if k = "FOO" then some ⟨5, 0⟩ else none

/-- A cache holding a price entry of value 5 observed at time 0 for the
symbol BTC. -/
def cacheBtc : Cache :=
  fun k => if k = "BTC" then some ⟨5, 0⟩ else none

/-! ## General lemmas about the degen-score tiers and rounding -/

theorem mcap_risk_score_antitone {a b : ℚ} (h : a ≤ b) :
    mcap_risk_score b ≤ mcap_risk_score a := by
  unfold mcap_risk_score
  split_ifs <;> linarith

theorem vol_risk_score_mono {a b : ℚ} (h : a ≤ b) :
    vol_risk_score a ≤ vol_risk_score b := by
  unfold vol_risk_score
  split_ifs <;> linarith

theorem mcap_risk_score_bounds (m : ℚ) :
    1 ≤ mcap_risk_score m ∧ mcap_risk_score m ≤ 10 := by
  unfold mcap_risk_score
  split_ifs <;> norm_num

theorem vol_param_bounds (c : Option ℚ) : 2 ≤ vol_param c ∧ vol_param c ≤ 10 := by
  cases c with
  | none => exact ⟨by norm_num [vol_param], by norm_num [vol_param]⟩
  | some x =>
    show 2 ≤ vol_risk_score |x| ∧ vol_risk_score |x| ≤ 10
    unfold vol_risk_score
    split_ifs <;> norm_num

theorem blended_bounds (a b : ℚ) : 1 ≤ blended a b ∧ blended a b ≤ 10 := by
  refine ⟨le_max_left _ _, max_le (by norm_num) (min_le_left _ _)⟩

theorem blended_mono_left {a a' : ℚ} (h : a ≤ a') (v : ℚ) :
    blended a v ≤ blended a' v := by
  unfold blended
  exact max_le_max le_rfl (min_le_min le_rfl (by linarith))

theorem blended_mono_right (a : ℚ) {v v' : ℚ} (h : v ≤ v') :
    blended a v ≤ blended a v' := by
  unfold blended
  exact max_le_max le_rfl (min_le_min le_rfl (by linarith))

theorem round1_mono {a b : ℚ} (h : a ≤ b) : round1 a ≤ round1 b := by
  unfold round1
  have h2 : round (10 * a) ≤ round (10 * b) := by
    rw [round_eq, round_eq]
    exact Int.floor_le_floor (by linarith)
  have h3 : ((round (10 * a) : ℤ) : ℚ) ≤ ((round (10 * b) : ℤ) : ℚ) := Int.cast_le.2 h2
  gcongr

theorem round1_one : round1 1 = 1 := by
  norm_num [round1, round_eq]

theorem round1_ten : round1 10 = 10 := by
  norm_num [round1, round_eq]

theorem round1_bounds {x : ℚ} (h1 : 1 ≤ x) (h2 : x ≤ 10) :
    1 ≤ round1 x ∧ round1 x ≤ 10 := by
  constructor
  · calc (1 : ℚ) = round1 1 := round1_one.symm
      _ ≤ round1 x := round1_mono h1
  · calc round1 x ≤ round1 10 := round1_mono h2
      _ = 10 := round1_ten

theorem degen_score_some (m : ℚ) (c : Option ℚ) :
    degen_score (some m) c =
      some ⟨round1 (blended (mcap_risk_score m) (vol_param c)),
            degen_label (blended (mcap_risk_score m) (vol_param c))⟩ := rfl

theorem mcap_risk_score_cases (m : ℚ) :
    mcap_risk_score m = 1 ∨ mcap_risk_score m = 3 ∨ mcap_risk_score m = 5 ∨
      mcap_risk_score m = 7 ∨ mcap_risk_score m = 8 ∨ mcap_risk_score m = 10 := by
  unfold mcap_risk_score
  split_ifs <;> simp

theorem vol_param_cases (c : Option ℚ) :
    vol_param c = 2 ∨ vol_param c = 4 ∨ vol_param c = 6 ∨ vol_param c = 8 ∨
      vol_param c = 10 := by
  cases c with
  | none => simp [vol_param]
  | some x =>
    simp only [vol_param]
    unfold vol_risk_score
    split_ifs <;> simp

/-- On the tier values actually produced by the risk scores, the blend is an
exact multiple of one tenth, so rounding to one decimal is the identity. -/
theorem round1_blended_eq {m v : ℚ}
    (hm : m = 1 ∨ m = 3 ∨ m = 5 ∨ m = 7 ∨ m = 8 ∨ m = 10)
    (hv : v = 2 ∨ v = 4 ∨ v = 6 ∨ v = 8 ∨ v = 10) :
    round1 (blended m v) = blended m v := by
  rcases hm with rfl | rfl | rfl | rfl | rfl | rfl <;>
    rcases hv with rfl | rfl | rfl | rfl | rfl <;>
      norm_num [blended, round1, round_eq, max_def, min_def]

/-- **C6**: `degen_score` is `none` exactly when the market cap is unknown;
otherwise its score is the clamped blend `0.6 * mcapTier + 0.4 * volTier`
rounded to one decimal, with the tier tables exactly as the claim lists
them (neutral volatility 6 when the 24h change is unknown), and its label
is chosen from the score by the inclusive upper-bound thresholds
2 / 4 / 6 / 8. -/
theorem degen_score_spec :
    (∀ (mo c : Option ℚ), degen_score mo c = none ↔ mo = none) ∧
    (∀ (m : ℚ) (c : Option ℚ) (r : DegenResult), degen_score (some m) c = some r →
      r.score =
        round1 (max 1 (min 10
          (6 / 10 *
              (if m ≥ 10000000000 then (1 : ℚ)
               else if m ≥ 1000000000 then 3
               else if m ≥ 200000000 then 5
               else if m ≥ 50000000 then 7
               else if m ≥ 5000000 then 8
               else 10) +
            4 / 10 *
              (match c with
               | none => (6 : ℚ)
               | some x =>
                 if |x| < 2 then 2
                 else if |x| < 5 then 4
                 else if |x| < 10 then 6
                 else if |x| < 20 then 8
                 else 10)))) ∧
      r.label =
        (if r.score ≤ 2 then DegenLabel.blueChip
         else if r.score ≤ 4 then DegenLabel.largeCap
         else if r.score ≤ 6 then DegenLabel.midCap
         else if r.score ≤ 8 then DegenLabel.microcap
         else DegenLabel.memeDegen)) := by
  constructor
  · intro mo c
    cases mo with
    | none => simp [degen_score]
    | some m => simp [degen_score_some]
  · intro m c r h
    rw [degen_score_some] at h
    injection h with h
    subst h
    constructor
    · rfl
    · show degen_label _ = _
      have hid : round1 (blended (mcap_risk_score m) (vol_param c)) =
          blended (mcap_risk_score m) (vol_param c) :=
        round1_blended_eq (mcap_risk_score_cases m) (vol_param_cases c)
      show degen_label (blended (mcap_risk_score m) (vol_param c)) = _
      rw [show (⟨round1 (blended (mcap_risk_score m) (vol_param c)),
            degen_label (blended (mcap_risk_score m) (vol_param c))⟩ : DegenResult).score =
          blended (mcap_risk_score m) (vol_param c) from hid]
      rfl

/-- Witness for C6 at a concrete input: market cap 5e9 (tier 3) and 24h
change 3 (tier 4) blend to score 3.4 and the large-cap label. -/
theorem degen_score_spec_witness :
    degen_score (some 5000000000) (some 3) = some ⟨17 / 5, DegenLabel.largeCap⟩ ∧
    (⟨17 / 5, DegenLabel.largeCap⟩ : DegenResult).label =
      (if (⟨(17 : ℚ) / 5, DegenLabel.largeCap⟩ : DegenResult).score ≤ 2 then DegenLabel.blueChip
       else if (⟨(17 : ℚ) / 5, DegenLabel.largeCap⟩ : DegenResult).score ≤ 4 then DegenLabel.largeCap
       else if (⟨(17 : ℚ) / 5, DegenLabel.largeCap⟩ : DegenResult).score ≤ 6 then DegenLabel.midCap
       else if (⟨(17 : ℚ) / 5, DegenLabel.largeCap⟩ : DegenResult).score ≤ 8 then DegenLabel.microcap
       else DegenLabel.memeDegen) := by
  have hd : degen_score (some 5000000000) (some 3) = some ⟨17 / 5, DegenLabel.largeCap⟩ := by
    norm_num [degen_score, mcap_risk_score, vol_risk_score, vol_param, blended, degen_label,
      round1, round_eq, max_def, min_def]
  exact ⟨hd, (degen_score_spec.2 5000000000 (some 3) _ hd).2⟩

/-- **C7**: with volatility fixed, a larger market cap never yields a larger
degen score; with market cap fixed, a larger `|change24h|` never yields a
smaller score; every defined score lies in `[1, 10]`. -/
theorem degen_score_monotone :
    (∀ (m1 m2 : ℚ) (c : Option ℚ) (r1 r2 : DegenResult), m1 ≤ m2 →
        degen_score (some m1) c = some r1 → degen_score (some m2) c = some r2 →
        r2.score ≤ r1.score) ∧
    (∀ (m c1 c2 : ℚ) (r1 r2 : DegenResult), |c1| ≤ |c2| →
        degen_score (some m) (some c1) = some r1 →
        degen_score (some m) (some c2) = some r2 →
        r1.score ≤ r2.score) ∧
    (∀ (mo c : Option ℚ) (r : DegenResult), degen_score mo c = some r →
        1 ≤ r.score ∧ r.score ≤ 10) := by
  refine ⟨?_, ?_, ?_⟩
  · intro m1 m2 c r1 r2 hm h1 h2
    rw [degen_score_some] at h1 h2
    injection h1 with h1
    injection h2 with h2
    subst h1
    subst h2
    exact round1_mono (blended_mono_left (mcap_risk_score_antitone hm) _)
  · intro m c1 c2 r1 r2 hc h1 h2
    rw [degen_score_some] at h1 h2
    injection h1 with h1
    injection h2 with h2
    subst h1
    subst h2
    exact round1_mono (blended_mono_right _ (vol_risk_score_mono hc))
  · intro mo c r h
    cases mo with
    | none => simp [degen_score] at h
    | some m =>
      rw [degen_score_some] at h
      injection h with h
      subst h
      have hb := blended_bounds (mcap_risk_score m) (vol_param c)
      exact round1_bounds hb.1 hb.2

/-- Witness for C7: market cap 1e6 (score 8.4 with unknown change) versus
2e10 (score 3), exercising the antitone part. -/
theorem degen_score_monotone_witness :
    degen_score (some 1000000) none = some ⟨42 / 5, DegenLabel.memeDegen⟩ ∧
    degen_score (some 20000000000) none = some ⟨3, DegenLabel.largeCap⟩ ∧
    (⟨(3 : ℚ), DegenLabel.largeCap⟩ : DegenResult).score ≤
      (⟨(42 : ℚ) / 5, DegenLabel.memeDegen⟩ : DegenResult).score := by
  have h1 : degen_score (some 1000000) none = some ⟨42 / 5, DegenLabel.memeDegen⟩ := by
    norm_num [degen_score, mcap_risk_score, vol_param, blended, degen_label,
      round1, round_eq, max_def, min_def]
  have h2 : degen_score (some 20000000000) none = some ⟨3, DegenLabel.largeCap⟩ := by
    norm_num [degen_score, mcap_risk_score, vol_param, blended, degen_label,
      round1, round_eq, max_def, min_def]
  exact ⟨h1, h2,
    degen_score_monotone.1 1000000 20000000000 none _ _ (by norm_num) h1 h2⟩

/-! ## Symbol resolver (C5) -/

/-- **C5**: resolution works on the lowercased, trimmed form of the input;
an alias-table hit returns the mapped identifier with no search call; an
issued search with zero candidates yields `none` (NotFound); a candidate
matching the query case-insensitively is preferred; with no exact match the
first candidate's identifier is returned. -/
theorem resolve_token_id_spec :
    (∀ (env : GatewayEnv) (symbol tid : String),
        List.lookup (py_strip (py_lower symbol)) CG_MAPPING = some tid →
        resolve_token_id env symbol = (some tid, 0)) ∧
    (∀ (env : GatewayEnv) (symbol : String),
        List.lookup (py_strip (py_lower symbol)) CG_MAPPING = none →
        env.search (py_strip (py_lower symbol)) = some [] →
        resolve_token_id env symbol = (none, 1)) ∧
    (∀ (env : GatewayEnv) (symbol : String) (coins : List SearchCandidate),
        List.lookup (py_strip (py_lower symbol)) CG_MAPPING = none →
        env.search (py_strip (py_lower symbol)) = some coins →
        (∃ x ∈ coins, py_lower x.symbol = py_strip (py_lower symbol)) →
        ∃ x ∈ coins, py_lower x.symbol = py_strip (py_lower symbol) ∧
          resolve_token_id env symbol = (x.id, 1)) ∧
    (∀ (env : GatewayEnv) (symbol : String) (c : SearchCandidate)
        (cs : List SearchCandidate),
        List.lookup (py_strip (py_lower symbol)) CG_MAPPING = none →
        env.search (py_strip (py_lower symbol)) = some (c :: cs) →
        (∀ x ∈ c :: cs, py_lower x.symbol ≠ py_strip (py_lower symbol)) →
        resolve_token_id env symbol = (c.id, 1)) := by
  refine ⟨?_, ?_, ?_, ?_⟩
  · intro env symbol tid h
    simp [resolve_token_id, h]
  · intro env symbol h1 h2
    simp [resolve_token_id, h1, h2]
  · intro env symbol coins h1 h2 hex
    obtain ⟨x0, hx0mem, hx0⟩ := hex
    cases coins with
    | nil => simp at hx0mem
    | cons c cs =>
      have hsome :
          ((c :: cs).find? (fun x => py_lower x.symbol == py_strip (py_lower symbol))).isSome :=
        List.find?_isSome.2 ⟨x0, hx0mem, beq_iff_eq.mpr hx0⟩
      obtain ⟨x, hfind⟩ := Option.isSome_iff_exists.1 hsome
      have hpred := List.find?_some hfind
      refine ⟨x, List.mem_of_find?_eq_some hfind, beq_iff_eq.1 hpred, ?_⟩
      simp [resolve_token_id, h1, h2, hfind]
  · intro env symbol c cs h1 h2 hall
    have hnone :
        ((c :: cs).find? (fun x => py_lower x.symbol == py_strip (py_lower symbol))) = none :=
      List.find?_eq_none.2 fun x hx hbeq => hall x hx (beq_iff_eq.1 hbeq)
    simp [resolve_token_id, h1, h2, hnone]

/-- Witness for C5: the alias "btc" resolves to "bitcoin" with no search
call even on a gateway whose search endpoint is down. -/
theorem resolve_token_id_spec_witness :
    List.lookup (py_strip (py_lower "btc")) CG_MAPPING = some "bitcoin" ∧
    resolve_token_id envDown "btc" = (some "bitcoin", 0) :=
  ⟨by decide, resolve_token_id_spec.1 envDown "btc" "bitcoin" (by decide)⟩

/-! ## Position store operations (C10) -/

theorem filter_all_of_length_eq {α : Type} {l : List α} {q : α → Bool}
    (h : (l.filter q).length = l.length) : ∀ a ∈ l, q a :=
  List.filter_eq_self.1 ((List.filter_sublist l).eq_of_length h)

theorem count_filter_of_pred {α : Type} [DecidableEq α] (q : α → Bool) (a : α)
    (ha : q a = true) : ∀ l : List α, (l.filter q).count a = l.count a := by
  intro l
  induction l with
  | nil => rfl
  | cons x xs ih =>
    by_cases hx : x = a
    · subst hx
      simp [List.filter_cons, ha, List.count_cons, ih]
    · cases hqx : q x <;>
        simp [List.filter_cons, hqx, List.count_cons, hx, ih]

/-- `remove` when no stored position matches: the store is returned
unchanged with a `false` flag. -/
theorem remove_nomatch {store : Store} {uid : Nat} {sym : String}
    (h : ((store uid).filter (fun p => p.symbol != py_upper sym)).length =
      (store uid).length) :
    remove store uid sym = (store, false) := by
  simp [remove, h]

/-- `remove` when at least one stored position matches: the requesting
account's list is filtered and a `true` flag is returned. -/
theorem remove_match {store : Store} {uid : Nat} {sym : String}
    (h : ¬ ((store uid).filter (fun p => p.symbol != py_upper sym)).length =
      (store uid).length) :
    remove store uid sym =
      ((fun u => if u = uid then
          (store uid).filter (fun p => p.symbol != py_upper sym)
        else store u), true) := by
  simp [remove, h]

/-- **C10**: removing by symbol deletes exactly the requesting account's
positions whose stored symbol equals the uppercased argument (all of them,
with multiplicities of the others preserved), leaves every other account
untouched, reports no-match (and changes nothing) exactly when no position
matches; clearing empties only the requesting account's list. -/
theorem store_remove_clear_spec :
    (∀ (store : Store) (uid : Nat) (sym : String) (p : Position),
        p ∈ ((remove store uid sym).1) uid → p.symbol ≠ py_upper sym) ∧
    (∀ (store : Store) (uid : Nat) (sym : String) (p : Position),
        p.symbol ≠ py_upper sym →
        (((remove store uid sym).1) uid).count p = (store uid).count p) ∧
    (∀ (store : Store) (uid : Nat) (sym : String) (u : Nat), u ≠ uid →
        ((remove store uid sym).1) u = store u) ∧
    (∀ (store : Store) (uid : Nat) (sym : String),
        (remove store uid sym).2 = false ↔ ∀ p ∈ store uid, p.symbol ≠ py_upper sym) ∧
    (∀ (store : Store) (uid : Nat) (sym : String),
        (remove store uid sym).2 = false → (remove store uid sym).1 = store) ∧
    (∀ (store : Store) (uid : Nat), ((clear store uid).1) uid = []) ∧
    (∀ (store : Store) (uid : Nat) (u : Nat), u ≠ uid →
        ((clear store uid).1) u = store u) := by
  refine ⟨?_, ?_, ?_, ?_, ?_, ?_, ?_⟩
  · intro store uid sym p hp
    by_cases hlen :
        ((store uid).filter (fun q => q.symbol != py_upper sym)).length = (store uid).length
    · rw [remove_nomatch hlen] at hp
      exact bne_iff_ne.1 (filter_all_of_length_eq hlen p hp)
    · rw [remove_match hlen] at hp
      simp only [eq_self_iff_true, if_true] at hp
      have hq := List.of_mem_filter hp
      exact bne_iff_ne.1 hq
  · intro store uid sym p hne
    by_cases hlen :
        ((store uid).filter (fun q => q.symbol != py_upper sym)).length = (store uid).length
    · rw [remove_nomatch hlen]
    · rw [remove_match hlen]
      simp only [eq_self_iff_true, if_true]
      exact count_filter_of_pred (fun q => q.symbol != py_upper sym) p
        (bne_iff_ne.2 hne) (store uid)
  · intro store uid sym u hu
    by_cases hlen :
        ((store uid).filter (fun q => q.symbol != py_upper sym)).length = (store uid).length
    · rw [remove_nomatch hlen]
    · rw [remove_match hlen]
      simp [hu]
  · intro store uid sym
    constructor
    · intro hfalse p hp
      by_cases hlen :
          ((store uid).filter (fun q => q.symbol != py_upper sym)).length = (store uid).length
      · exact bne_iff_ne.1 (filter_all_of_length_eq hlen p hp)
      · rw [remove_match hlen] at hfalse
        simp at hfalse
    · intro hall
      have heq : (store uid).filter (fun q => q.symbol != py_upper sym) = store uid :=
        List.filter_eq_self.2 fun p hp => bne_iff_ne.2 (hall p hp)
      have hlen : ((store uid).filter (fun q => q.symbol != py_upper sym)).length =
          (store uid).length := by rw [heq]
      rw [remove_nomatch hlen]
  · intro store uid sym hfalse
    by_cases hlen :
        ((store uid).filter (fun q => q.symbol != py_upper sym)).length = (store uid).length
    · rw [remove_nomatch hlen]
    · rw [remove_match hlen] at hfalse
      simp at hfalse
  · intro store uid
    by_cases h : store uid ≠ []
    · simp [clear, h]
    · simp only [clear, if_neg h]
      exact not_not.1 h
  · intro store uid u hu
    by_cases h : store uid ≠ []
    · simp [clear, h, hu]
    · simp [clear, h]

/-- A sample store: account 7 holds two SOL positions around one ETH
position. -/
def storeSample : Store :=
  fun u =>
    if u = 7 then
      [⟨"SOL", 10, 80, "t1"⟩, ⟨"ETH", 1, 1000, "t2"⟩, ⟨"SOL", 2, 90, "t3"⟩]
    else []

/-- Witness for C10: removing "sol" from account 7 leaves account 5
untouched and clearing account 7 empties it. -/
theorem store_remove_clear_spec_witness :
    (5 : Nat) ≠ 7 ∧ ((remove storeSample 7 "sol").1) 5 = storeSample 5 ∧
    ((clear storeSample 7).1) 7 = [] :=
  ⟨by decide, store_remove_clear_spec.2.2.1 storeSample 7 "sol" 5 (by decide),
   store_remove_clear_spec.2.2.2.2.2.1 storeSample 7⟩

/-! ## What-if calculation (C1, C8, C9) -/

/-- The display-name fallback expression of `calc_what_if_date`
(`get_token_name(symbol) or symbol.upper()`). -/
def what_if_name (env : GatewayEnv) (symbol : String) : String :=
  match get_token_name env symbol with
  | some n => if n = "" then py_upper symbol else n
  | none => py_upper symbol

theorem calc_eq_of_hist_none {env : GatewayEnv} {cache : Cache} {now : ℚ}
    {symbol : String} {usd : ℚ} {date : String}
    (h : get_historical_price_usd env symbol date = none) :
    calc_what_if_date env cache now symbol usd date = .unavailable := by
  simp [calc_what_if_date, h]

theorem calc_eq_of_current_none {env : GatewayEnv} {cache : Cache} {now : ℚ}
    {symbol : String} {usd : ℚ} {date : String} {bp : ℚ}
    (h1 : get_historical_price_usd env symbol date = some bp)
    (h2 : (get_current_price_usd env cache now symbol).result = none) :
    calc_what_if_date env cache now symbol usd date = .unavailable := by
  simp [calc_what_if_date, h1, h2]

theorem calc_eq_fault {env : GatewayEnv} {cache : Cache} {now : ℚ}
    {symbol : String} {usd : ℚ} {date : String} {cp : ℚ}
    (h1 : get_historical_price_usd env symbol date = some 0)
    (h2 : (get_current_price_usd env cache now symbol).result = some cp) :
    calc_what_if_date env cache now symbol usd date = .fault := by
  simp [calc_what_if_date, h1, h2]

theorem calc_eq_ok {env : GatewayEnv} {cache : Cache} {now : ℚ}
    {symbol : String} {usd : ℚ} {date : String} {bp cp : ℚ}
    (h1 : get_historical_price_usd env symbol date = some bp) (hbp : bp ≠ 0)
    (h2 : (get_current_price_usd env cache now symbol).result = some cp) :
    calc_what_if_date env cache now symbol usd date =
      .ok
        { name := what_if_name env symbol
          symbol := py_upper symbol
          usd_amount := usd
          tokens := usd / bp
          buy_price := bp
          buy_date := date
          current_price := cp
          initial_value := usd
          current_value := usd / bp * cp
          profit_abs := usd / bp * cp - usd
          profit_pct := if usd ≠ 0 then (usd / bp * cp - usd) / usd * 100 else 0 } := by
  simp only [calc_what_if_date, h1, h2, what_if_name, if_neg hbp]

/-- **C1, amended**: the what-if operation returns Unavailable when either
the historical or the current price is missing; when both are present and
the historical price is nonzero it returns the result with
`tokens = usd / historicalPrice`, `initialValue = usd`,
`currentValue = tokens * currentPrice`, `profitAbs = currentValue - usd`,
`profitPct = profitAbs / usd * 100` (0 for `usd = 0`), the display name
defaulting to the uppercased symbol when the name lookup fails; the
round-trip instance 10 / 20 / 100 gives 10 / 200 / 100 / 100%.  (When the
fetched historical price is zero the source instead raises
`ZeroDivisionError`; see the counterexample.) -/
theorem calc_what_if_date_spec :
    (∀ (env : GatewayEnv) (cache : Cache) (now : ℚ) (symbol : String) (usd : ℚ)
        (date : String),
        get_historical_price_usd env symbol date = none →
        calc_what_if_date env cache now symbol usd date = .unavailable) ∧
    (∀ (env : GatewayEnv) (cache : Cache) (now : ℚ) (symbol : String) (usd : ℚ)
        (date : String) (bp : ℚ),
        get_historical_price_usd env symbol date = some bp →
        (get_current_price_usd env cache now symbol).result = none →
        calc_what_if_date env cache now symbol usd date = .unavailable) ∧
    (∀ (env : GatewayEnv) (cache : Cache) (now : ℚ) (symbol : String) (usd : ℚ)
        (date : String) (bp cp : ℚ),
        get_historical_price_usd env symbol date = some bp → bp ≠ 0 →
        (get_current_price_usd env cache now symbol).result = some cp →
        ∃ r : WhatIfResult,
          calc_what_if_date env cache now symbol usd date = .ok r ∧
          r.tokens = usd / bp ∧ r.usd_amount = usd ∧ r.initial_value = usd ∧
          r.current_value = r.tokens * cp ∧ r.profit_abs = r.current_value - usd ∧
          r.profit_pct = (if usd ≠ 0 then r.profit_abs / usd * 100 else 0) ∧
          r.buy_price = bp ∧ r.current_price = cp ∧ r.buy_date = date ∧
          r.symbol = py_upper symbol ∧
          (get_token_name env symbol = none → r.name = py_upper symbol)) ∧
    (∀ (env : GatewayEnv) (cache : Cache) (now : ℚ) (symbol : String)
        (date : String),
        get_historical_price_usd env symbol date = some 10 →
        (get_current_price_usd env cache now symbol).result = some 20 →
        ∃ r : WhatIfResult,
          calc_what_if_date env cache now symbol 100 date = .ok r ∧
          r.tokens = 10 ∧ r.current_value = 200 ∧ r.profit_abs = 100 ∧
          r.profit_pct = 100) := by
  refine ⟨?_, ?_, ?_, ?_⟩
  · intro env cache now symbol usd date h
    exact calc_eq_of_hist_none h
  · intro env cache now symbol usd date bp h1 h2
    exact calc_eq_of_current_none h1 h2
  · intro env cache now symbol usd date bp cp h1 hbp h2
    refine ⟨_, calc_eq_ok h1 hbp h2, ?_, rfl, rfl, ?_, ?_, rfl, rfl, rfl, rfl, rfl, ?_⟩
    · rfl
    · show usd / bp * cp = usd / bp * cp
      rfl
    · show usd / bp * cp - usd = usd / bp * cp - usd
      rfl
    · intro hname
      show what_if_name env symbol = py_upper symbol
      simp [what_if_name, hname]
  · intro env cache now symbol date h1 h2
    refine ⟨_, calc_eq_ok h1 (by norm_num) h2, ?_, ?_, ?_, ?_⟩
    · show (100 : ℚ) / 10 = 10
      norm_num
    · show (100 : ℚ) / 10 * 20 = 200
      norm_num
    · show (100 : ℚ) / 10 * 20 - 100 = 100
      norm_num
    · show (if (100 : ℚ) ≠ 0 then ((100 : ℚ) / 10 * 20 - 100) / 100 * 100 else 0) = 100
      norm_num

/-- C1 counterexample: with a fetched historical price of `0.0` and a
current price of 20 both present, the source neither returns Unavailable
nor a result — `usd_amount / buy_price` raises `ZeroDivisionError`. -/
theorem calc_what_if_date_zero_cex :
    get_historical_price_usd envZeroHist "btc" "2023-01-01" = some 0 ∧
    (get_current_price_usd envZeroHist emptyCache 0 "btc").result = some 20 ∧
    calc_what_if_date envZeroHist emptyCache 0 "btc" 100 "2023-01-01" =
      WhatIfOutcome.fault ∧
    calc_what_if_date envZeroHist emptyCache 0 "btc" 100 "2023-01-01" ≠
      WhatIfOutcome.unavailable := by
  have h0 : resolve_token_id envZeroHist "btc" = (some "bitcoin", 0) := by decide
  have h1 : get_historical_price_usd envZeroHist "btc" "2023-01-01" = some 0 := by
    simp only [get_historical_price_usd, h0]
    rfl
  have h2 : (get_current_price_usd envZeroHist emptyCache 0 "btc").result = some 20 := by
    simp only [get_current_price_usd, refresh_price, emptyCache, h0]
    rfl
  refine ⟨h1, h2, calc_eq_fault h1 h2, ?_⟩
  rw [calc_eq_fault h1 h2]
  simp

/-- Witness for C1 with the round-trip gateway: historical 10 and current
20 are fetched, and the round-trip conjunct applied there shows the
operation completes with a result (not Unavailable). -/
theorem calc_what_if_date_spec_witness :
    get_historical_price_usd envRoundTrip "btc" "2023-01-01" = some 10 ∧
    (get_current_price_usd envRoundTrip emptyCache 0 "btc").result = some 20 ∧
    calc_what_if_date envRoundTrip emptyCache 0 "btc" 100 "2023-01-01" ≠
      WhatIfOutcome.unavailable := by
  have h0 : resolve_token_id envRoundTrip "btc" = (some "bitcoin", 0) := by decide
  have h1 : get_historical_price_usd envRoundTrip "btc" "2023-01-01" = some 10 := by
    simp only [get_historical_price_usd, h0]
    rfl
  have h2 : (get_current_price_usd envRoundTrip emptyCache 0 "btc").result = some 20 := by
    simp only [get_current_price_usd, refresh_price, emptyCache, h0]
    rfl
  obtain ⟨r, hr, -⟩ := calc_what_if_date_spec.2.2.2 envRoundTrip emptyCache 0 "btc"
    "2023-01-01" h1 h2
  refine ⟨h1, h2, ?_⟩
  rw [hr]
  simp

/-- **C9, amended**: provided the fetched historical price is nonzero, the
what-if operation never faults — every failure is the absence-of-result
value (`unavailable`); the zero-historical-price case is the single fault
the source can raise (see the counterexample). -/
theorem whatif_no_fault_spec :
    ∀ (env : GatewayEnv) (cache : Cache) (now : ℚ) (symbol : String) (usd : ℚ)
      (date : String),
      get_historical_price_usd env symbol date ≠ some 0 →
      calc_what_if_date env cache now symbol usd date ≠ WhatIfOutcome.fault := by
  intro env cache now symbol usd date hne
  cases hh : get_historical_price_usd env symbol date with
  | none =>
    rw [calc_eq_of_hist_none hh]
    simp
  | some bp =>
    have hbp : bp ≠ 0 := fun h => hne (h ▸ hh)
    cases hc : (get_current_price_usd env cache now symbol).result with
    | none =>
      rw [calc_eq_of_current_none hh hc]
      simp
    | some cp =>
      rw [calc_eq_ok hh hbp hc]
      simp

/-- C9 counterexample: a zero historical price with a live current price
makes the source raise `ZeroDivisionError` out of `calc_what_if_date`
rather than return an absence-of-result value. -/
theorem whatif_fault_cex :
    get_historical_price_usd envZeroHist "eth" "2021-05-01" = some 0 ∧
    (get_current_price_usd envZeroHist emptyCache 0 "eth").result = some 20 ∧
    calc_what_if_date envZeroHist emptyCache 0 "eth" 50 "2021-05-01" =
      WhatIfOutcome.fault := by
  have h0 : resolve_token_id envZeroHist "eth" = (some "ethereum", 0) := by decide
  have h1 : get_historical_price_usd envZeroHist "eth" "2021-05-01" = some 0 := by
    simp only [get_historical_price_usd, h0]
    rfl
  have h2 : (get_current_price_usd envZeroHist emptyCache 0 "eth").result = some 20 := by
    simp only [get_current_price_usd, refresh_price, emptyCache, h0]
    rfl
  exact ⟨h1, h2, calc_eq_fault h1 h2⟩

/-- Witness for C9: with a nonzero historical price the operation does not
fault. -/
theorem whatif_no_fault_spec_witness :
    get_historical_price_usd envRoundTrip "btc" "2023-01-01" ≠ some 0 ∧
    calc_what_if_date envRoundTrip emptyCache 0 "btc" 100 "2023-01-01" ≠
      WhatIfOutcome.fault := by
  have h0 : resolve_token_id envRoundTrip "btc" = (some "bitcoin", 0) := by decide
  have h1 : get_historical_price_usd envRoundTrip "btc" "2023-01-01" = some 10 := by
    simp only [get_historical_price_usd, h0]
    rfl
  have hne : get_historical_price_usd envRoundTrip "btc" "2023-01-01" ≠ some 0 := by
    rw [h1]
    simp
  exact ⟨hne, whatif_no_fault_spec envRoundTrip emptyCache 0 "btc" 100 "2023-01-01" hne⟩

/-! ## Portfolio aggregation (C2) and zero-denominator guards (C8) -/

theorem portfolio_aux_nil (env : GatewayEnv) (now : ℚ) (idx : Nat) (cache : Cache) :
    portfolio_aux env now idx cache [] = ([], 0, 0, cache) := rfl

theorem portfolio_aux_cons_skip {env : GatewayEnv} {now : ℚ} {idx : Nat}
    {cache : Cache} {p : Position} {ps : List Position}
    (h : (get_current_price_usd env cache now p.symbol).result = none) :
    portfolio_aux env now idx cache (p :: ps) =
      portfolio_aux env now (idx + 1)
        (get_current_price_usd env cache now p.symbol).cache ps := by
  simp [portfolio_aux, h]

theorem portfolio_aux_cons_line {env : GatewayEnv} {now : ℚ} {idx : Nat}
    {cache : Cache} {p : Position} {ps : List Position} {price : ℚ}
    (h : (get_current_price_usd env cache now p.symbol).result = some price) :
    portfolio_aux env now idx cache (p :: ps) =
      (position_line idx p price ::
          (portfolio_aux env now (idx + 1)
            (get_current_price_usd env cache now p.symbol).cache ps).1,
        (position_line idx p price).initial_value +
          (portfolio_aux env now (idx + 1)
            (get_current_price_usd env cache now p.symbol).cache ps).2.1,
        (position_line idx p price).current_value +
          (portfolio_aux env now (idx + 1)
            (get_current_price_usd env cache now p.symbol).cache ps).2.2.1,
        (portfolio_aux env now (idx + 1)
          (get_current_price_usd env cache now p.symbol).cache ps).2.2.2) := by
  simp [portfolio_aux, h]

theorem portfolio_aux_total_initial (env : GatewayEnv) (now : ℚ) :
    ∀ (ps : List Position) (idx : Nat) (cache : Cache),
      (portfolio_aux env now idx cache ps).2.1 =
        ((portfolio_aux env now idx cache ps).1.map PortfolioLine.initial_value).sum := by
  intro ps
  induction ps with
  | nil => intro idx cache; simp [portfolio_aux_nil]
  | cons p ps ih =>
    intro idx cache
    cases h : (get_current_price_usd env cache now p.symbol).result with
    | none =>
      rw [portfolio_aux_cons_skip h]
      exact ih _ _
    | some price =>
      rw [portfolio_aux_cons_line h]
      simp [ih]

theorem portfolio_aux_total_current (env : GatewayEnv) (now : ℚ) :
    ∀ (ps : List Position) (idx : Nat) (cache : Cache),
      (portfolio_aux env now idx cache ps).2.2.1 =
        ((portfolio_aux env now idx cache ps).1.map PortfolioLine.current_value).sum := by
  intro ps
  induction ps with
  | nil => intro idx cache; simp [portfolio_aux_nil]
  | cons p ps ih =>
    intro idx cache
    cases h : (get_current_price_usd env cache now p.symbol).result with
    | none =>
      rw [portfolio_aux_cons_skip h]
      exact ih _ _
    | some price =>
      rw [portfolio_aux_cons_line h]
      simp [ih]

theorem portfolio_aux_lines_shape (env : GatewayEnv) (now : ℚ) :
    ∀ (ps : List Position) (idx : Nat) (cache : Cache) (l : PortfolioLine),
      l ∈ (portfolio_aux env now idx cache ps).1 →
      ∃ (i : Nat) (p : Position) (price : ℚ), p ∈ ps ∧ l = position_line i p price := by
  intro ps
  induction ps with
  | nil =>
    intro idx cache l hl
    simp [portfolio_aux_nil] at hl
  | cons p ps ih =>
    intro idx cache l hl
    cases h : (get_current_price_usd env cache now p.symbol).result with
    | none =>
      rw [portfolio_aux_cons_skip h] at hl
      obtain ⟨i, q, price, hq, hlq⟩ := ih _ _ _ hl
      exact ⟨i, q, price, List.mem_cons_of_mem _ hq, hlq⟩
    | some price =>
      rw [portfolio_aux_cons_line h] at hl
      rcases List.mem_cons.1 hl with hEq | hMem
      · exact ⟨idx, p, price, List.mem_cons_self _ _, hEq⟩
      · obtain ⟨i, q, price', hq, hlq⟩ := ih _ _ _ hMem
        exact ⟨i, q, price', List.mem_cons_of_mem _ hq, hlq⟩

/-- **C2**: portfolio totals are exactly the sums of the per-line initial
and current values; total profit and percentage follow the same formulas
over the totals; every emitted line satisfies the per-position formulas;
a position whose price lookup fails is skipped — it contributes neither a
line nor anything to the totals — while a priced position contributes its
line and its two values. -/
theorem portfolio_spec :
    (∀ (env : GatewayEnv) (cache : Cache) (now : ℚ) (positions : List Position),
        (portfolio_calc env cache now positions).1.total_initial =
          (((portfolio_calc env cache now positions).1.lines).map
            PortfolioLine.initial_value).sum) ∧
    (∀ (env : GatewayEnv) (cache : Cache) (now : ℚ) (positions : List Position),
        (portfolio_calc env cache now positions).1.total_current =
          (((portfolio_calc env cache now positions).1.lines).map
            PortfolioLine.current_value).sum) ∧
    (∀ (env : GatewayEnv) (cache : Cache) (now : ℚ) (positions : List Position),
        (portfolio_calc env cache now positions).1.total_profit =
          (portfolio_calc env cache now positions).1.total_current -
            (portfolio_calc env cache now positions).1.total_initial) ∧
    (∀ (env : GatewayEnv) (cache : Cache) (now : ℚ) (positions : List Position),
        (portfolio_calc env cache now positions).1.total_pct =
          (if (portfolio_calc env cache now positions).1.total_initial ≠ 0 then
            (portfolio_calc env cache now positions).1.total_profit /
              (portfolio_calc env cache now positions).1.total_initial * 100
          else 0)) ∧
    (∀ (env : GatewayEnv) (cache : Cache) (now : ℚ) (positions : List Position)
        (l : PortfolioLine), l ∈ (portfolio_calc env cache now positions).1.lines →
        l.initial_value = l.amount * l.buy_price ∧
        l.current_value = l.amount * l.current_price ∧
        l.profit_abs = l.current_value - l.initial_value ∧
        l.profit_pct =
          (if l.initial_value ≠ 0 then l.profit_abs / l.initial_value * 100 else 0)) ∧
    (∀ (env : GatewayEnv) (cache : Cache) (now : ℚ) (idx : Nat) (p : Position)
        (ps : List Position),
        (get_current_price_usd env cache now p.symbol).result = none →
        portfolio_aux env now idx cache (p :: ps) =
          portfolio_aux env now (idx + 1)
            (get_current_price_usd env cache now p.symbol).cache ps) ∧
    (∀ (env : GatewayEnv) (cache : Cache) (now : ℚ) (idx : Nat) (p : Position)
        (ps : List Position) (price : ℚ),
        (get_current_price_usd env cache now p.symbol).result = some price →
        portfolio_aux env now idx cache (p :: ps) =
          (position_line idx p price ::
              (portfolio_aux env now (idx + 1)
                (get_current_price_usd env cache now p.symbol).cache ps).1,
            (position_line idx p price).initial_value +
              (portfolio_aux env now (idx + 1)
                (get_current_price_usd env cache now p.symbol).cache ps).2.1,
            (position_line idx p price).current_value +
              (portfolio_aux env now (idx + 1)
                (get_current_price_usd env cache now p.symbol).cache ps).2.2.1,
            (portfolio_aux env now (idx + 1)
              (get_current_price_usd env cache now p.symbol).cache ps).2.2.2)) := by
  refine ⟨?_, ?_, ?_, ?_, ?_, ?_, ?_⟩
  · intro env cache now positions
    simp only [portfolio_calc]
    exact portfolio_aux_total_initial env now positions 1 cache
  · intro env cache now positions
    simp only [portfolio_calc]
    exact portfolio_aux_total_current env now positions 1 cache
  · intro env cache now positions
    rfl
  · intro env cache now positions
    rfl
  · intro env cache now positions l hl
    simp only [portfolio_calc] at hl
    obtain ⟨i, p, price, -, hlq⟩ := portfolio_aux_lines_shape env now positions 1 cache l hl
    subst hlq
    exact ⟨rfl, rfl, rfl, rfl⟩
  · intro env cache now idx p ps h
    exact portfolio_aux_cons_skip h
  · intro env cache now idx p ps price h
    exact portfolio_aux_cons_line h

/-- A gateway on which only bitcoin has a live price. -/
def envBtcOnly : GatewayEnv :=
  { search := fun _ => none
    fetchPrice := fun tid => if tid = "bitcoin" then some 30 else none
    fetchMcap := fun _ => none
    fetchHist := fun _ _ => none
    fetchName := fun _ => none }

/-- Witness for C2: the unresolvable position ZZZ is skipped — the run on
`ZZZ :: BTC` positions equals the run on the BTC position alone (with the
index advanced), contributing nothing. -/
theorem portfolio_spec_witness :
    (get_current_price_usd envBtcOnly emptyCache 0 "ZZZ").result = none ∧
    portfolio_aux envBtcOnly 0 1 emptyCache
        [⟨"ZZZ", 1, 5, "t0"⟩, ⟨"BTC", 2, 10, "t1"⟩] =
      portfolio_aux envBtcOnly 0 2
        (get_current_price_usd envBtcOnly emptyCache 0 "ZZZ").cache
        [⟨"BTC", 2, 10, "t1"⟩] := by
  have h : (get_current_price_usd envBtcOnly emptyCache 0
      (Position.symbol ⟨"ZZZ", 1, 5, "t0"⟩)).result = none := by
    have h0 : resolve_token_id envBtcOnly "ZZZ" = (none, 1) := by decide
    simp only [get_current_price_usd, refresh_price, emptyCache, h0]
  exact ⟨h, portfolio_spec.2.2.2.2.2.1 envBtcOnly emptyCache 0 1
    ⟨"ZZZ", 1, 5, "t0"⟩ [⟨"BTC", 2, 10, "t1"⟩] h⟩

/-- **C8**: whenever the denominator of `profitPct` is zero — `usdAmount`
in what-if mode, a line's initial value or the total initial value in
portfolio mode — the percentage is defined as 0; the guarded percentage
division itself never faults (the only fault in `calc_what_if_date` is the
unguarded token division on a zero historical price). -/
theorem profit_pct_zero_spec :
    (∀ (env : GatewayEnv) (cache : Cache) (now : ℚ) (symbol : String)
        (date : String) (r : WhatIfResult),
        calc_what_if_date env cache now symbol 0 date = .ok r → r.profit_pct = 0) ∧
    (∀ (env : GatewayEnv) (cache : Cache) (now : ℚ) (symbol : String) (usd : ℚ)
        (date : String),
        calc_what_if_date env cache now symbol usd date = WhatIfOutcome.fault →
        get_historical_price_usd env symbol date = some 0) ∧
    (∀ (env : GatewayEnv) (cache : Cache) (now : ℚ) (positions : List Position)
        (l : PortfolioLine), l ∈ (portfolio_calc env cache now positions).1.lines →
        l.initial_value = 0 → l.profit_pct = 0) ∧
    (∀ (env : GatewayEnv) (cache : Cache) (now : ℚ) (positions : List Position),
        (portfolio_calc env cache now positions).1.total_initial = 0 →
        (portfolio_calc env cache now positions).1.total_pct = 0) := by
  refine ⟨?_, ?_, ?_, ?_⟩
  · intro env cache now symbol date r h
    cases hh : get_historical_price_usd env symbol date with
    | none =>
      rw [calc_eq_of_hist_none hh] at h
      cases h
    | some bp =>
      cases hc : (get_current_price_usd env cache now symbol).result with
      | none =>
        rw [calc_eq_of_current_none hh hc] at h
        cases h
      | some cp =>
        by_cases hbp : bp = 0
        · subst hbp
          rw [calc_eq_fault hh hc] at h
          cases h
        · rw [calc_eq_ok hh hbp hc] at h
          injection h with h
          subst h
          simp
  · intro env cache now symbol usd date h
    cases hh : get_historical_price_usd env symbol date with
    | none =>
      rw [calc_eq_of_hist_none hh] at h
      cases h
    | some bp =>
      cases hc : (get_current_price_usd env cache now symbol).result with
      | none =>
        rw [calc_eq_of_current_none hh hc] at h
        cases h
      | some cp =>
        by_cases hbp : bp = 0
        · subst hbp
          rfl
        · rw [calc_eq_ok hh hbp hc] at h
          cases h
  · intro env cache now positions l hl h0
    simp only [portfolio_calc] at hl
    obtain ⟨i, p, price, -, hlq⟩ := portfolio_aux_lines_shape env now positions 1 cache l hl
    subst hlq
    simp only [position_line] at h0 ⊢
    simp [h0]
  · intro env cache now positions h
    simp only [portfolio_calc] at h ⊢
    simp [h]

/-- Witness for C8: an empty portfolio has total initial value 0 and its
total percentage is 0 rather than a division fault. -/
theorem profit_pct_zero_spec_witness :
    (portfolio_calc envDown emptyCache 0 []).1.total_initial = 0 ∧
    (portfolio_calc envDown emptyCache 0 []).1.total_pct = 0 := by
  have h : (portfolio_calc envDown emptyCache 0 ([] : List Position)).1.total_initial = 0 := rfl
  exact ⟨h, profit_pct_zero_spec.2.2.2 envDown emptyCache 0 [] h⟩

/-! ## Quote caches (C3, C4) -/

theorem price_fresh {env : GatewayEnv} {cache : Cache} {now : ℚ} {symbol : String}
    {e : CacheEntry} (he : cache (py_upper symbol) = some e)
    (hf : now - e.ts < PRICE_TTL) :
    get_current_price_usd env cache now symbol = ⟨some e.value, cache, 0, 0⟩ := by
  simp only [get_current_price_usd, he]
  rw [if_pos hf]

theorem price_expired {env : GatewayEnv} {cache : Cache} {now : ℚ} {symbol : String}
    (hx : ∀ e, cache (py_upper symbol) = some e → ¬(now - e.ts < PRICE_TTL)) :
    get_current_price_usd env cache now symbol = refresh_price env cache now symbol := by
  cases hc : cache (py_upper symbol) with
  | none => simp only [get_current_price_usd, hc]
  | some e =>
    simp only [get_current_price_usd, hc]
    rw [if_neg (hx e hc)]

theorem mcap_fresh {env : GatewayEnv} {cache : Cache} {now : ℚ} {symbol : String}
    {e : CacheEntry} (he : cache (py_upper symbol) = some e)
    (hf : now - e.ts < MCAP_TTL) :
    get_token_market_cap env cache now symbol = ⟨some e.value, cache, 0, 0⟩ := by
  simp only [get_token_market_cap, he]
  rw [if_pos hf]

theorem mcap_expired {env : GatewayEnv} {cache : Cache} {now : ℚ} {symbol : String}
    (hx : ∀ e, cache (py_upper symbol) = some e → ¬(now - e.ts < MCAP_TTL)) :
    get_token_market_cap env cache now symbol = refresh_mcap env cache now symbol := by
  cases hc : cache (py_upper symbol) with
  | none => simp only [get_token_market_cap, hc]
  | some e =>
    simp only [get_token_market_cap, hc]
    rw [if_neg (hx e hc)]

theorem refresh_price_unresolved {env : GatewayEnv} {cache : Cache} {now : ℚ}
    {symbol : String} (h : (resolve_token_id env symbol).1 = none) :
    refresh_price env cache now symbol =
      ⟨none, cache, 0, (resolve_token_id env symbol).2⟩ := by
  rcases hr : resolve_token_id env symbol with ⟨tido, s⟩
  rw [hr] at h
  replace h : tido = none := h
  subst h
  simp [refresh_price, hr]

theorem refresh_price_fetch_none {env : GatewayEnv} {cache : Cache} {now : ℚ}
    {symbol tid : String} (h1 : (resolve_token_id env symbol).1 = some tid)
    (h2 : env.fetchPrice tid = none) :
    refresh_price env cache now symbol =
      ⟨none, cache, 1, (resolve_token_id env symbol).2⟩ := by
  rcases hr : resolve_token_id env symbol with ⟨tido, s⟩
  rw [hr] at h1
  replace h1 : tido = some tid := h1
  subst h1
  simp [refresh_price, hr, h2]

theorem refresh_price_fetch_some {env : GatewayEnv} {cache : Cache} {now : ℚ}
    {symbol tid : String} {price : ℚ}
    (h1 : (resolve_token_id env symbol).1 = some tid)
    (h2 : env.fetchPrice tid = some price) :
    refresh_price env cache now symbol =
      ⟨some price, fun k => if k = py_upper symbol then some ⟨price, now⟩ else cache k,
        1, (resolve_token_id env symbol).2⟩ := by
  rcases hr : resolve_token_id env symbol with ⟨tido, s⟩
  rw [hr] at h1
  replace h1 : tido = some tid := h1
  subst h1
  simp [refresh_price, hr, h2]

theorem refresh_mcap_unresolved {env : GatewayEnv} {cache : Cache} {now : ℚ}
    {symbol : String} (h : (resolve_token_id env symbol).1 = none) :
    refresh_mcap env cache now symbol =
      ⟨none, cache, 0, (resolve_token_id env symbol).2⟩ := by
  rcases hr : resolve_token_id env symbol with ⟨tido, s⟩
  rw [hr] at h
  replace h : tido = none := h
  subst h
  simp [refresh_mcap, hr]

theorem refresh_mcap_fetch_none {env : GatewayEnv} {cache : Cache} {now : ℚ}
    {symbol tid : String} (h1 : (resolve_token_id env symbol).1 = some tid)
    (h2 : env.fetchMcap tid = none) :
    refresh_mcap env cache now symbol =
      ⟨none, cache, 1, (resolve_token_id env symbol).2⟩ := by
  rcases hr : resolve_token_id env symbol with ⟨tido, s⟩
  rw [hr] at h1
  replace h1 : tido = some tid := h1
  subst h1
  simp [refresh_mcap, hr, h2]

theorem refresh_mcap_fetch_some {env : GatewayEnv} {cache : Cache} {now : ℚ}
    {symbol tid : String} {mcap : ℚ}
    (h1 : (resolve_token_id env symbol).1 = some tid)
    (h2 : env.fetchMcap tid = some mcap) :
    refresh_mcap env cache now symbol =
      ⟨some mcap, fun k => if k = py_upper symbol then some ⟨mcap, now⟩ else cache k,
        1, (resolve_token_id env symbol).2⟩ := by
  rcases hr : resolve_token_id env symbol with ⟨tido, s⟩
  rw [hr] at h1
  replace h1 : tido = some tid := h1
  subst h1
  simp [refresh_mcap, hr, h2]

/-- **C3, amended**: for each quote cache (spot price with TTL 20, market
cap with TTL 60), a lookup strictly within the TTL returns the cached value
with no network activity and an unchanged cache; a lookup at or after the
TTL, when the symbol resolves, issues exactly one data fetch and on fetch
success overwrites the entry with the new value and the current timestamp
(other keys untouched); when resolution fails, no data fetch is issued and
the cache is unchanged (this resolution-failure case is where the claim's
unconditional "exactly one fetch" fails — see the counterexample). -/
theorem quote_cache_ttl_spec :
    (∀ (env : GatewayEnv) (cache : Cache) (now : ℚ) (symbol : String)
        (e : CacheEntry), cache (py_upper symbol) = some e →
        now - e.ts < PRICE_TTL →
        get_current_price_usd env cache now symbol = ⟨some e.value, cache, 0, 0⟩) ∧
    (∀ (env : GatewayEnv) (cache : Cache) (now : ℚ) (symbol tid : String),
        (∀ e, cache (py_upper symbol) = some e → ¬(now - e.ts < PRICE_TTL)) →
        (resolve_token_id env symbol).1 = some tid →
        (get_current_price_usd env cache now symbol).fetches = 1 ∧
        (∀ price : ℚ, env.fetchPrice tid = some price →
          (get_current_price_usd env cache now symbol).result = some price ∧
          (get_current_price_usd env cache now symbol).cache (py_upper symbol) =
            some ⟨price, now⟩ ∧
          (∀ k : String, k ≠ py_upper symbol →
            (get_current_price_usd env cache now symbol).cache k = cache k))) ∧
    (∀ (env : GatewayEnv) (cache : Cache) (now : ℚ) (symbol : String),
        (∀ e, cache (py_upper symbol) = some e → ¬(now - e.ts < PRICE_TTL)) →
        (resolve_token_id env symbol).1 = none →
        (get_current_price_usd env cache now symbol).fetches = 0 ∧
        (get_current_price_usd env cache now symbol).result = none ∧
        (get_current_price_usd env cache now symbol).cache = cache) ∧
    (∀ (env : GatewayEnv) (cache : Cache) (now : ℚ) (symbol : String)
        (e : CacheEntry), cache (py_upper symbol) = some e →
        now - e.ts < MCAP_TTL →
        get_token_market_cap env cache now symbol = ⟨some e.value, cache, 0, 0⟩) ∧
    (∀ (env : GatewayEnv) (cache : Cache) (now : ℚ) (symbol tid : String),
        (∀ e, cache (py_upper symbol) = some e → ¬(now - e.ts < MCAP_TTL)) →
        (resolve_token_id env symbol).1 = some tid →
        (get_token_market_cap env cache now symbol).fetches = 1 ∧
        (∀ mcap : ℚ, env.fetchMcap tid = some mcap →
          (get_token_market_cap env cache now symbol).result = some mcap ∧
          (get_token_market_cap env cache now symbol).cache (py_upper symbol) =
            some ⟨mcap, now⟩ ∧
          (∀ k : String, k ≠ py_upper symbol →
            (get_token_market_cap env cache now symbol).cache k = cache k))) ∧
    (∀ (env : GatewayEnv) (cache : Cache) (now : ℚ) (symbol : String),
        (∀ e, cache (py_upper symbol) = some e → ¬(now - e.ts < MCAP_TTL)) →
        (resolve_token_id env symbol).1 = none →
        (get_token_market_cap env cache now symbol).fetches = 0 ∧
        (get_token_market_cap env cache now symbol).result = none ∧
        (get_token_market_cap env cache now symbol).cache = cache) := by
  refine ⟨?_, ?_, ?_, ?_, ?_, ?_⟩
  · intro env cache now symbol e he hf
    exact price_fresh he hf
  · intro env cache now symbol tid hx hres
    rw [price_expired hx]
    cases hp : env.fetchPrice tid with
    | none =>
      rw [refresh_price_fetch_none hres hp]
      exact ⟨rfl, fun price hprice => by simp at hprice⟩
    | some price =>
      rw [refresh_price_fetch_some hres hp]
      refine ⟨rfl, ?_⟩
      intro price' hprice
      injection hprice with hprice
      subst hprice
      refine ⟨rfl, ?_, ?_⟩
      · show (if py_upper symbol = py_upper symbol then _ else _) = _
        rw [if_pos rfl]
      · intro k hk
        show (if k = py_upper symbol then _ else _) = _
        rw [if_neg hk]
  · intro env cache now symbol hx hres
    rw [price_expired hx, refresh_price_unresolved hres]
    exact ⟨rfl, rfl, rfl⟩
  · intro env cache now symbol e he hf
    exact mcap_fresh he hf
  · intro env cache now symbol tid hx hres
    rw [mcap_expired hx]
    cases hp : env.fetchMcap tid with
    | none =>
      rw [refresh_mcap_fetch_none hres hp]
      exact ⟨rfl, fun mcap hmcap => by simp at hmcap⟩
    | some mcap =>
      rw [refresh_mcap_fetch_some hres hp]
      refine ⟨rfl, ?_⟩
      intro mcap' hmcap
      injection hmcap with hmcap
      subst hmcap
      refine ⟨rfl, ?_, ?_⟩
      · show (if py_upper symbol = py_upper symbol then _ else _) = _
        rw [if_pos rfl]
      · intro k hk
        show (if k = py_upper symbol then _ else _) = _
        rw [if_neg hk]
  · intro env cache now symbol hx hres
    rw [mcap_expired hx, refresh_mcap_unresolved hres]
    exact ⟨rfl, rfl, rfl⟩

/-- C3 counterexample: the FOO entry is expired at time 20 (TTL 20), yet
the lookup issues zero data fetches because the symbol no longer resolves
(the gateway is down), falsifying the claim's unconditional "exactly one
new fetch" after TTL expiry. -/
theorem quote_cache_ttl_cex :
    cacheFoo (py_upper "foo") = some ⟨5, 0⟩ ∧
    ¬((20 : ℚ) - (0 : ℚ) < PRICE_TTL) ∧
    (get_current_price_usd envDown cacheFoo 20 "foo").fetches = 0 ∧
    (get_current_price_usd envDown cacheFoo 20 "foo").fetches ≠ 1 := by
  have he : cacheFoo (py_upper "foo") = some ⟨5, 0⟩ := by decide
  have hx : ∀ e, cacheFoo (py_upper "foo") = some e → ¬((20 : ℚ) - e.ts < PRICE_TTL) := by
    intro e hee
    rw [he] at hee
    injection hee with hee
    subst hee
    norm_num [PRICE_TTL]
  have hres : (resolve_token_id envDown "foo").1 = none := by decide
  rw [@price_expired envDown cacheFoo 20 "foo" hx, refresh_price_unresolved hres]
  refine ⟨he, by norm_num [PRICE_TTL], rfl, by simp⟩

/-- Witness for C3: a fresh FOO entry at time 5 is served from the cache
with no network activity and an unchanged cache. -/
theorem quote_cache_ttl_spec_witness :
    cacheFoo (py_upper "foo") = some ⟨5, 0⟩ ∧
    (5 : ℚ) - (0 : ℚ) < PRICE_TTL ∧
    get_current_price_usd envDown cacheFoo 5 "foo" = ⟨some 5, cacheFoo, 0, 0⟩ := by
  have he : cacheFoo (py_upper "foo") = some ⟨5, 0⟩ := by decide
  have hf : (5 : ℚ) - (CacheEntry.ts ⟨5, 0⟩) < PRICE_TTL := by norm_num [PRICE_TTL]
  exact ⟨he, by norm_num [PRICE_TTL],
    quote_cache_ttl_spec.1 envDown cacheFoo 5 "foo" ⟨5, 0⟩ he hf⟩

/-- **C4, amended**: when the entry has expired (or none exists), the
symbol still resolves, and the data fetch fails, the lookup leaves the
whole cache untouched (the old entry is not evicted) but returns
Unavailable in both cases; the stale value merely remains stored — it is
not served (see the counterexample for the "degrades to stale data"
reading). -/
theorem quote_cache_stale_spec :
    (∀ (env : GatewayEnv) (cache : Cache) (now : ℚ) (symbol tid : String),
        (∀ e, cache (py_upper symbol) = some e → ¬(now - e.ts < PRICE_TTL)) →
        (resolve_token_id env symbol).1 = some tid →
        env.fetchPrice tid = none →
        (get_current_price_usd env cache now symbol).result = none ∧
        (get_current_price_usd env cache now symbol).cache = cache) ∧
    (∀ (env : GatewayEnv) (cache : Cache) (now : ℚ) (symbol tid : String),
        (∀ e, cache (py_upper symbol) = some e → ¬(now - e.ts < MCAP_TTL)) →
        (resolve_token_id env symbol).1 = some tid →
        env.fetchMcap tid = none →
        (get_token_market_cap env cache now symbol).result = none ∧
        (get_token_market_cap env cache now symbol).cache = cache) := by
  constructor
  · intro env cache now symbol tid hx hres hp
    rw [price_expired hx, refresh_price_fetch_none hres hp]
    exact ⟨rfl, rfl⟩
  · intro env cache now symbol tid hx hres hp
    rw [mcap_expired hx, refresh_mcap_fetch_none hres hp]
    exact ⟨rfl, rfl⟩

/-- C4 counterexample: the BTC entry (value 5) is expired, the symbol still
resolves, the fetch fails; the entry survives untouched in the cache but
the lookup returns Unavailable — it does not degrade to serving the stale
value 5. -/
theorem quote_cache_stale_cex :
    cacheBtc (py_upper "btc") = some ⟨5, 0⟩ ∧
    ¬((20 : ℚ) - (0 : ℚ) < PRICE_TTL) ∧
    (resolve_token_id envDown "btc").1 = some "bitcoin" ∧
    envDown.fetchPrice "bitcoin" = none ∧
    (get_current_price_usd envDown cacheBtc 20 "btc").result = none ∧
    (get_current_price_usd envDown cacheBtc 20 "btc").result ≠ some 5 ∧
    (get_current_price_usd envDown cacheBtc 20 "btc").cache (py_upper "btc") =
      some ⟨5, 0⟩ := by
  have he : cacheBtc (py_upper "btc") = some ⟨5, 0⟩ := by decide
  have hx : ∀ e, cacheBtc (py_upper "btc") = some e → ¬((20 : ℚ) - e.ts < PRICE_TTL) := by
    intro e hee
    rw [he] at hee
    injection hee with hee
    subst hee
    norm_num [PRICE_TTL]
  have hres : (resolve_token_id envDown "btc").1 = some "bitcoin" := by decide
  have hp : envDown.fetchPrice "bitcoin" = none := rfl
  rw [@price_expired envDown cacheBtc 20 "btc" hx, refresh_price_fetch_none hres hp]
  exact ⟨he, by norm_num [PRICE_TTL], hres, hp, rfl, by simp, he⟩

/-- Witness for C4 at the same concrete configuration, through the amended
theorem: result Unavailable and cache untouched. -/
theorem quote_cache_stale_spec_witness :
    (resolve_token_id envDown "btc").1 = some "bitcoin" ∧
    envDown.fetchPrice "bitcoin" = none ∧
    (get_current_price_usd envDown cacheBtc 20 "btc").result = none ∧
    (get_current_price_usd envDown cacheBtc 20 "btc").cache = cacheBtc := by
  have he : cacheBtc (py_upper "btc") = some ⟨5, 0⟩ := by decide
  have hx : ∀ e, cacheBtc (py_upper "btc") = some e → ¬((20 : ℚ) - e.ts < PRICE_TTL) := by
    intro e hee
    rw [he] at hee
    injection hee with hee
    subst hee
    norm_num [PRICE_TTL]
  have hres : (resolve_token_id envDown "btc").1 = some "bitcoin" := by decide
  have hp : envDown.fetchPrice "bitcoin" = none := rfl
  have h := quote_cache_stale_spec.1 envDown cacheBtc 20 "btc" "bitcoin" hx hres hp
  exact ⟨hres, hp, h.1, h.2⟩

end CryptoBot
